import Mathlib

/-!
Verification of the hindsightchat realtime gateway (Go sources under
`src/routes/websocket/` plus the websocket handler file).  The Go code is
shallowly embedded: UUIDs become `Nat`, Go structs become Lean structures
with the same fields, the hub's `map[uuid]map[*Client]bool` indices become
association lists from ids to lists of client ids (`cid` standing for the
Go pointer identity), and every handler becomes a pure function returning
the frames it sends as `(recipient cid, frame)` pairs, the updated
database, and the presence side effects it triggers.
-/

namespace Gateway

/-! ## Opcodes (types.go) -/

def OpDispatch : Nat := 0
def OpHeartbeat : Nat := 1
def OpIdentify : Nat := 2
def OpPresenceUpdate : Nat := 3
def OpFocusChange : Nat := 4
def OpHeartbeatAck : Nat := 11
def OpReady : Nat := 12
def OpInvalidSession : Nat := 13
def OpTypingStart : Nat := 20
def OpTypingStop : Nat := 21
def OpMessageCreate : Nat := 22
def OpMessageEdit : Nat := 23
def OpMessageDelete : Nat := 24
def OpMessageAck : Nat := 25

/-! ## Event tags (types.go) -/

def EventChannelMessageCreate : String := "CHANNEL_MESSAGE_CREATE"
def EventChannelMessageUpdate : String := "CHANNEL_MESSAGE_UPDATE"
def EventChannelMessageDelete : String := "CHANNEL_MESSAGE_DELETE"
def EventDMMessageCreate : String := "DM_MESSAGE_CREATE"
def EventDMMessageUpdate : String := "DM_MESSAGE_UPDATE"
def EventDMMessageDelete : String := "DM_MESSAGE_DELETE"
def EventChannelMessageNotify : String := "CHANNEL_MESSAGE_NOTIFY"
def EventDMMessageNotify : String := "DM_MESSAGE_NOTIFY"
def EventTypingStart : String := "TYPING_START"
def EventTypingStop : String := "TYPING_STOP"
def EventPresenceUpdate : String := "PRESENCE_UPDATE"
def EventUserUpdate : String := "USER_UPDATE"
def EventServerMemberAdd : String := "SERVER_MEMBER_ADD"
def EventServerMemberRemove : String := "SERVER_MEMBER_REMOVE"
def EventMessageAck : String := "MESSAGE_ACK"

/-! ## Wire payload shapes (types.go) -/

/-- types.go `ActivityTimestamps` (fields Start/End; `tEnd` renames the Go
field `End`, `end` being reserved in Lean). -/
structure ActivityTimestamps where
  tStart : Int := 0
  tEnd : Int := 0
deriving DecidableEq, Repr

/-- types.go `Activity`. -/
structure Activity where
  smallText : String := ""
  largeText : String := ""
  details : String := ""
  state : String := ""
  appName : String := ""
  timestamps : Option ActivityTimestamps := none
deriving DecidableEq, Repr

/-- websocket/types.go `UserBrief`. -/
structure UserBrief where
  id : Nat := 0
  username : String := ""
  domain : String := ""
  profilePicURL : String := ""
  email : String := ""
deriving DecidableEq, Repr

/-- Modelled from the spec: the presence record `{status, activity?,
updated_at}` held at key `presence:<uuid>`; the repository's
PresenceManager source file (defining Go's `PresenceData`) is not under
src/, only its callers are. -/
structure PresenceData where
  status : String := "offline"
  activity : Option Activity := none
  updatedAt : Nat := 0
deriving DecidableEq, Repr

/-- websocket/types.go `UserWithPresence`. -/
structure UserWithPresence where
  id : Nat := 0
  username : String := ""
  domain : String := ""
  profilePicURL : String := ""
  presence : Option PresenceData := none
deriving DecidableEq, Repr

/-- websocket/types.go `IdentifyPayload`. -/
structure IdentifyPayload where
  token : String := ""
deriving DecidableEq, Repr

/-- websocket/types.go `ReadyPayload`. -/
structure ReadyPayload where
  user : UserBrief := {}
  sessionID : String := ""
  users : List UserWithPresence := []
deriving DecidableEq, Repr

/-- websocket/types.go `HeartbeatPayload`. -/
structure HeartbeatPayload where
  timestamp : Int := 0
deriving DecidableEq, Repr

/-- websocket/types.go `FocusPayload`. -/
structure FocusPayload where
  channelID : Option Nat := none
  serverID : Option Nat := none
  conversationID : Option Nat := none
deriving DecidableEq, Repr

/-- websocket/types.go `PresenceUpdatePayload`. -/
structure PresenceUpdatePayload where
  userID : Nat := 0
  status : String := ""
  activity : Option Activity := none
deriving DecidableEq, Repr

/-- websocket/types.go `TypingPayload`. -/
structure TypingPayload where
  channelID : Option Nat := none
  serverID : Option Nat := none
  conversationID : Option Nat := none
  userID : Nat := 0
  user : Option UserBrief := none
deriving DecidableEq, Repr

/-- websocket/types.go `ChannelMessagePayload`; field defaults are the Go
zero values, matching the partial struct literals in the handlers. -/
structure ChannelMessagePayload where
  id : Nat := 0
  channelID : Nat := 0
  serverID : Nat := 0
  authorID : Nat := 0
  author : Option UserBrief := none
  content : String := ""
  attachments : List String := []
  replyToID : Option Nat := none
  createdAt : Nat := 0
  editedAt : Option Nat := none
deriving DecidableEq, Repr

/-- websocket/types.go `DMMessagePayload`. -/
structure DMMessagePayload where
  id : Nat := 0
  conversationID : Nat := 0
  authorID : Nat := 0
  author : Option UserBrief := none
  content : String := ""
  attachments : List String := []
  replyToID : Option Nat := none
  createdAt : Nat := 0
  editedAt : Option Nat := none
deriving DecidableEq, Repr

/-- websocket/types.go `ChannelMessageNotifyPayload`: the id-only notify
shape, carrying exactly channel_id, server_id, message_id, author_id. -/
structure ChannelMessageNotifyPayload where
  channelID : Nat := 0
  serverID : Nat := 0
  messageID : Nat := 0
  authorID : Nat := 0
deriving DecidableEq, Repr

/-- websocket/types.go `DMMessageNotifyPayload`. -/
structure DMMessageNotifyPayload where
  conversationID : Nat := 0
  messageID : Nat := 0
  authorID : Nat := 0
deriving DecidableEq, Repr

/-- websocket/types.go `MessageDeletePayload`. -/
structure MessageDeletePayload where
  messageID : Nat := 0
  channelID : Option Nat := none
  serverID : Option Nat := none
  conversationID : Option Nat := none
deriving DecidableEq, Repr

/-- websocket/types.go `MessageAckPayload`. -/
structure MessageAckPayload where
  channelID : Option Nat := none
  conversationID : Option Nat := none
  messageID : Nat := 0
deriving DecidableEq, Repr

/-- websocket/types.go `ErrorPayload`. -/
structure ErrorPayload where
  code : Nat := 0
  message : String := ""
deriving DecidableEq, Repr

/-- The possible shapes of a frame's `d` field (`Data any` in Go).  The
ad-hoc `map[string]any` literals in the handlers get their own
constructors: `createAck` is the `{"id": dbMsg.ID}` ack,
`focusAck` the acknowledgement map of handleFocusChange, and
`messageAckEvent` the MESSAGE_ACK dispatch map of handleMessageAck. -/
inductive Payload where
  | error (p : ErrorPayload)
  | ready (p : ReadyPayload)
  | heartbeatAck (p : HeartbeatPayload)
  | channelMessage (p : ChannelMessagePayload)
  | channelMessageNotify (p : ChannelMessageNotifyPayload)
  | dmMessage (p : DMMessagePayload)
  | dmMessageNotify (p : DMMessageNotifyPayload)
  | typing (p : TypingPayload)
  | presenceUpdate (p : PresenceUpdatePayload)
  | messageDelete (p : MessageDeletePayload)
  | createAck (id : Nat)
  | focusAck (channelID serverID conversationID : Option Nat)
  | messageAckEvent (userID : Nat) (conversationID : Option Nat)
      (messageID : Nat) (readAt : Nat)
deriving DecidableEq, Repr

/-- websocket/types.go `Message`: the wire frame.  `data = none`, an empty
event and an empty nonce are the Go zero values (all three fields carry
`omitempty`). -/
structure Message where
  op : Nat
  data : Option Payload := none
  event : String := ""
  nonce : String := ""
deriving DecidableEq, Repr

/-- The frame `Client.SendError` (client.go) constructs: op Dispatch, no
event tag, no nonce, an `ErrorPayload` as `d`. -/
def errorFrame (code : Nat) (message : String) : Message :=
  { op := OpDispatch, data := some (.error { code := code, message := message }) }

/-- The frame `Client.SendAck` (client.go) constructs: op Dispatch with the
request's nonce echoed. -/
def ackFrame (nonce : String) (d : Payload) : Message :=
  { op := OpDispatch, nonce := nonce, data := some d }

/-- The frame `Client.SendDispatch` (client.go) and the dispatch helpers in
hub.go construct: `{op: Dispatch, t: event, d: data}`. -/
def mkDispatch (event : String) (d : Payload) : Message :=
  { op := OpDispatch, event := event, data := some d }

/-! ## Client (client.go) -/

/-- `send chan []byte` has capacity 256 (client.go `make(chan []byte, 256)`). -/
def sendQueueCapacity : Nat := 256

/-- client.go `Client`.  `cid` stands for the Go pointer identity; the
bounded channel `send` becomes the FIFO list `sendQueue` plus a
`sendClosed` flag. -/
structure Client where
  cid : Nat
  sessionID : String := ""
  userID : Nat := 0
  user : Option UserBrief := none
  identified : Bool := false
  status : String := "online"
  activity : Option Activity := none
  focusedChannel : Option Nat := none
  focusedServer : Option Nat := none
  focusedConversation : Option Nat := none
  servers : List Nat := []
  conversations : List Nat := []
  sendQueue : List Message := []
  sendClosed : Bool := false
deriving DecidableEq, Repr

/-- client.go `IsInServer`: lookup in the `servers` set. -/
def Client.IsInServer (c : Client) (serverID : Nat) : Bool :=
  c.servers.contains serverID

/-- client.go `IsInConversation`. -/
def Client.IsInConversation (c : Client) (convID : Nat) : Bool :=
  c.conversations.contains convID

/-- client.go `IsFocusedOnChannel`: `focusedChannel != nil && *focusedChannel == channelID`. -/
def Client.IsFocusedOnChannel (c : Client) (channelID : Nat) : Bool :=
  match c.focusedChannel with
  | some x => x == channelID
  | none => false

/-- client.go `IsFocusedOnConversation`. -/
def Client.IsFocusedOnConversation (c : Client) (convID : Nat) : Bool :=
  match c.focusedConversation with
  | some x => x == convID
  | none => false

/-- client.go `SetFocus`. -/
def Client.SetFocus (c : Client) (channelID serverID conversationID : Option Nat) : Client :=
  { c with focusedChannel := channelID, focusedServer := serverID,
           focusedConversation := conversationID }

/-- client.go `Send`: the non-blocking enqueue.  `select { case c.send <-
data: default: log }` succeeds exactly when the 256-slot channel has room;
on a full queue the frame is dropped (only a log line is written) and the
client is otherwise untouched. -/
def Client.Send (c : Client) (m : Message) : Client :=
  if c.sendQueue.length < sendQueueCapacity then
    { c with sendQueue := c.sendQueue ++ [m] }
  else
    c

/-! ## Durable store rows (the gorm schema structs the gateway touches) -/

/-- Schema `Channel` (scalar fields; `channelType` renames the Go field
`Type`). -/
structure Channel where
  id : Nat := 0
  serverID : Nat := 0
  name : String := ""
  description : String := ""
  channelType : Nat := 0
  position : Nat := 0
deriving DecidableEq, Repr

/-- Schema `User` (the fields the gateway reads). -/
structure User where
  id : Nat := 0
  username : String := ""
  domain : String := ""
  email : String := ""
  profilePicURL : String := ""
deriving DecidableEq, Repr

/-- Schema `ChannelMessage` (scalar fields). -/
structure ChannelMessage where
  id : Nat := 0
  channelID : Nat := 0
  authorID : Nat := 0
  content : String := ""
  attachments : String := "[]"
  replyToID : Option Nat := none
  createdAt : Nat := 0
  editedAt : Option Nat := none
deriving DecidableEq, Repr

/-- Schema `DirectMessage` (scalar fields). -/
structure DirectMessage where
  id : Nat := 0
  conversationID : Nat := 0
  authorID : Nat := 0
  content : String := ""
  attachments : String := "[]"
  replyToID : Option Nat := none
  createdAt : Nat := 0
  editedAt : Option Nat := none
deriving DecidableEq, Repr

/-- Schema `DMParticipant` (scalar fields). -/
structure DMParticipant where
  conversationID : Nat := 0
  userID : Nat := 0
  joinedAt : Nat := 0
  lastReadAt : Option Nat := none
deriving DecidableEq, Repr

/-- The tables of the durable store the ingest handlers touch. -/
structure DB where
  channels : List Channel := []
  channelMessages : List ChannelMessage := []
  directMessages : List DirectMessage := []
  dmParticipants : List DMParticipant := []
deriving DecidableEq, Repr

/-- The `WHERE id = ? AND channel_id = ? AND author_id = ?` predicate of
handleMessageEdit / handleMessageDelete (channel branch). -/
def chMsgMatches (m : ChannelMessage) (messageID channelID authorID : Nat) : Bool :=
  m.id == messageID && m.channelID == channelID && m.authorID == authorID

/-- The `WHERE id = ? AND conversation_id = ? AND author_id = ?` predicate
of the DM branches. -/
def dmMsgMatches (m : DirectMessage) (messageID convID authorID : Nat) : Bool :=
  m.id == messageID && m.conversationID == convID && m.authorID == authorID

/-- gorm `Model(&ChannelMessage{}).Where(...).Updates({content, edited_at})`:
update every matching row, report RowsAffected. -/
def updateChannelMessages (l : List ChannelMessage) (messageID channelID authorID : Nat)
    (content : String) (now : Nat) : List ChannelMessage × Nat :=
  (l.map (fun m => if chMsgMatches m messageID channelID authorID then
            { m with content := content, editedAt := some now } else m),
   (l.filter (fun m => chMsgMatches m messageID channelID authorID)).length)

/-- gorm `Model(&DirectMessage{}).Where(...).Updates({content, edited_at})`. -/
def updateDirectMessages (l : List DirectMessage) (messageID convID authorID : Nat)
    (content : String) (now : Nat) : List DirectMessage × Nat :=
  (l.map (fun m => if dmMsgMatches m messageID convID authorID then
            { m with content := content, editedAt := some now } else m),
   (l.filter (fun m => dmMsgMatches m messageID convID authorID)).length)

/-- gorm `Where(...).Delete(&ChannelMessage{})`: hard delete of every
matching row, reporting RowsAffected. -/
def deleteChannelMessages (l : List ChannelMessage) (messageID channelID authorID : Nat) :
    List ChannelMessage × Nat :=
  (l.filter (fun m => !(chMsgMatches m messageID channelID authorID)),
   (l.filter (fun m => chMsgMatches m messageID channelID authorID)).length)

/-- gorm `Where(...).Delete(&DirectMessage{})`. -/
def deleteDirectMessages (l : List DirectMessage) (messageID convID authorID : Nat) :
    List DirectMessage × Nat :=
  (l.filter (fun m => !(dmMsgMatches m messageID convID authorID)),
   (l.filter (fun m => dmMsgMatches m messageID convID authorID)).length)

/-- gorm `Model(&DMParticipant{}).Where(conversation_id, user_id).Updates
({last_read_at: now})` of handleDMMessageCreate / handleMessageAck. -/
def touchLastRead (l : List DMParticipant) (convID userID now : Nat) : List DMParticipant :=
  l.map (fun p => if p.conversationID == convID && p.userID == userID then
           { p with lastReadAt := some now } else p)

/-- gorm `Where("id = ? AND server_id = ?").First(&channel)` of
handleChannelMessageCreate. -/
def findChannel (db : DB) (channelID serverID : Nat) : Option Channel :=
  db.channels.find? (fun ch => ch.id == channelID && ch.serverID == serverID)

/-! ## Hub (hub.go) -/

/-- One `map[uuid.UUID]map[*Client]bool` index, as an association list from
id to the set (list) of member client ids. -/
abbrev HubIndex : Type := List (Nat × List Nat)

/-- Go map lookup: the missing key behaves as the empty set (ranging over a
nil map visits nothing). -/
def idxLookup (m : HubIndex) (k : Nat) : List Nat :=
  match m.find? (fun e => e.1 == k) with
  | some e => e.2
  | none => []

/-- Go `if h.index[k] == nil { make }; h.index[k][client] = true`. -/
def idxInsert (m : HubIndex) (k cid : Nat) : HubIndex :=
  if m.any (fun e => e.1 == k) then
    m.map (fun e => if e.1 == k then
             (e.1, if e.2.contains cid then e.2 else e.2 ++ [cid]) else e)
  else
    m ++ [(k, [cid])]

/-- Go `delete(h.index[k], client); if len == 0 { delete(h.index, k) }`. -/
def idxRemove (m : HubIndex) (k cid : Nat) : HubIndex :=
  m.foldr (fun e acc =>
    if e.1 == k then
      (if (e.2.filter (fun x => x != cid)).isEmpty then acc
       else (e.1, e.2.filter (fun x => x != cid)) :: acc)
    else e :: acc) []

/-- hub.go `Hub`.  `store` is the heap of live `Client` objects keyed by
`cid` (the pointer identity); `clients` is the `all` set; the three indices
hold member cids. -/
structure Hub where
  store : List Client := []
  clients : List Nat := []
  userClients : HubIndex := []
  serverClients : HubIndex := []
  conversationClients : HubIndex := []
deriving DecidableEq

/-- Pointer dereference: resolve a cid against the heap. -/
def Hub.getClient (h : Hub) (cid : Nat) : Option Client :=
  h.store.find? (fun c => c.cid == cid)

/-- Write back a mutated client through its pointer. -/
def Hub.setClient (h : Hub) (c : Client) : Hub :=
  { h with store := h.store.map (fun x => if x.cid == c.cid then c else x) }

/-- Effects the hub triggers on the presence store and as broadcast
goroutines (`h.presence.SetOnline/SetOffline/RefreshPresence` and
`h.broadcastPresenceChange`). -/
inductive HubEffect where
  | setOnline (userID : Nat) (status : String) (activity : Option Activity)
  | setOffline (userID : Nat)
  | refreshPresence (userID : Nat)
  | broadcastPresence (userID : Nat) (status : String) (activity : Option Activity)
deriving DecidableEq, Repr

/-- hub.go `SendToUser`: copy the set out under the read lock, then
`client.Send(msg)` on each member.  The frames are returned as
`(recipient cid, frame)` pairs. -/
def Hub.SendToUser (h : Hub) (userID : Nat) (m : Message) : List (Nat × Message) :=
  (idxLookup h.userClients userID).map (fun cid => (cid, m))

/-- hub.go `SendToServer`. -/
def Hub.SendToServer (h : Hub) (serverID : Nat) (m : Message) : List (Nat × Message) :=
  (idxLookup h.serverClients serverID).map (fun cid => (cid, m))

/-- hub.go `SendToConversation`. -/
def Hub.SendToConversation (h : Hub) (convID : Nat) (m : Message) : List (Nat × Message) :=
  (idxLookup h.conversationClients convID).map (fun cid => (cid, m))

/-- hub.go `DispatchToUser`. -/
def Hub.DispatchToUser (h : Hub) (userID : Nat) (event : String) (d : Payload) :
    List (Nat × Message) :=
  h.SendToUser userID (mkDispatch event d)

/-- hub.go `DispatchToServer`. -/
def Hub.DispatchToServer (h : Hub) (serverID : Nat) (event : String) (d : Payload) :
    List (Nat × Message) :=
  h.SendToServer serverID (mkDispatch event d)

/-- hub.go `DispatchToConversation`. -/
def Hub.DispatchToConversation (h : Hub) (convID : Nat) (event : String) (d : Payload) :
    List (Nat × Message) :=
  h.SendToConversation convID (mkDispatch event d)

/-- hub.go `DispatchChannelMessage`: focus-aware fan-out over
`serverClients[serverID]`; a focused member gets the full payload as
CHANNEL_MESSAGE_CREATE, every other member the id-only notify payload as
CHANNEL_MESSAGE_NOTIFY.  (In Go the index holds the `*Client`s themselves;
here each cid is resolved against the heap, which never fails for an
indexed client.) -/
def Hub.DispatchChannelMessage (h : Hub) (serverID channelID : Nat)
    (fullPayload : ChannelMessagePayload) : List (Nat × Message) :=
  let notifyPayload : ChannelMessageNotifyPayload :=
    { channelID := channelID, serverID := serverID,
      messageID := fullPayload.id, authorID := fullPayload.authorID }
  (idxLookup h.serverClients serverID).filterMap (fun cid =>
    match h.getClient cid with
    | some c =>
        if c.IsFocusedOnChannel channelID then
          some (cid, mkDispatch EventChannelMessageCreate (.channelMessage fullPayload))
        else
          some (cid, mkDispatch EventChannelMessageNotify (.channelMessageNotify notifyPayload))
    | none => none)

/-- hub.go `DispatchDMMessage`. -/
def Hub.DispatchDMMessage (h : Hub) (convID : Nat)
    (fullPayload : DMMessagePayload) : List (Nat × Message) :=
  let notifyPayload : DMMessageNotifyPayload :=
    { conversationID := convID, messageID := fullPayload.id, authorID := fullPayload.authorID }
  (idxLookup h.conversationClients convID).filterMap (fun cid =>
    match h.getClient cid with
    | some c =>
        if c.IsFocusedOnConversation convID then
          some (cid, mkDispatch EventDMMessageCreate (.dmMessage fullPayload))
        else
          some (cid, mkDispatch EventDMMessageNotify (.dmMessageNotify notifyPayload))
    | none => none)

/-- hub.go `DispatchTypingToConversation`: only members whose focused
conversation matches receive the frame.  (Defined in the source but never
called by any handler.) -/
def Hub.DispatchTypingToConversation (h : Hub) (convID : Nat) (event : String)
    (payload : TypingPayload) : List (Nat × Message) :=
  (idxLookup h.conversationClients convID).filterMap (fun cid =>
    match h.getClient cid with
    | some c =>
        if c.IsFocusedOnConversation convID then
          some (cid, mkDispatch event (.typing payload))
        else none
    | none => none)

/-- hub.go `DispatchTypingToChannel` (likewise never called). -/
def Hub.DispatchTypingToChannel (h : Hub) (serverID channelID : Nat) (event : String)
    (payload : TypingPayload) : List (Nat × Message) :=
  (idxLookup h.serverClients serverID).filterMap (fun cid =>
    match h.getClient cid with
    | some c =>
        if c.IsFocusedOnChannel channelID then
          some (cid, mkDispatch event (.typing payload))
        else none
    | none => none)

/-- hub.go `RegisterIdentifiedClient`: bind the user and insert into
`userClients`. -/
def Hub.RegisterIdentifiedClient (h : Hub) (c : Client) (userID : Nat) (user : UserBrief) :
    Hub × Client :=
  let c' := { c with userID := userID, user := some user, identified := true }
  (({ h with userClients := idxInsert h.userClients userID c.cid }).setClient c', c')

/-- hub.go `SubscribeToServer`: session-local set update plus index
insert. -/
def Hub.SubscribeToServer (h : Hub) (c : Client) (serverID : Nat) : Hub × Client :=
  let c' := { c with servers := if c.servers.contains serverID then c.servers
                                else c.servers ++ [serverID] }
  (({ h with serverClients := idxInsert h.serverClients serverID c.cid }).setClient c', c')

/-- hub.go `SubscribeToConversation`. -/
def Hub.SubscribeToConversation (h : Hub) (c : Client) (convID : Nat) : Hub × Client :=
  let c' := { c with conversations := if c.conversations.contains convID then c.conversations
                                      else c.conversations ++ [convID] }
  (({ h with conversationClients := idxInsert h.conversationClients convID c.cid }).setClient c',
   c')

/-- hub.go `handleUnregister`: remove from `all`; when identified, remove
from `userClients[userID]` (with the offline transition when that set
empties) and from every subscribed server and conversation index; finally
`close(client.send)`.  A client not in `all` is left untouched. -/
def Hub.handleUnregister (h : Hub) (c : Client) : Hub × Client × List HubEffect :=
  if !(h.clients.contains c.cid) then (h, c, [])
  else
    let clientsAll := h.clients.filter (fun x => x != c.cid)
    if c.identified then
      let effects :=
        match h.userClients.find? (fun e => e.1 == c.userID) with
        | some e =>
            if (e.2.filter (fun x => x != c.cid)).isEmpty then
              [HubEffect.setOffline c.userID,
               HubEffect.broadcastPresence c.userID "offline" none]
            else []
        | none => []
      let userClients' := idxRemove h.userClients c.userID c.cid
      let serverClients' := c.servers.foldl (fun m sid => idxRemove m sid c.cid) h.serverClients
      let conversationClients' :=
        c.conversations.foldl (fun m kid => idxRemove m kid c.cid) h.conversationClients
      let c' := { c with sendClosed := true }
      (({ h with clients := clientsAll, userClients := userClients',
                 serverClients := serverClients',
                 conversationClients := conversationClients' }).setClient c',
       c', effects)
    else
      let c' := { c with sendClosed := true }
      (({ h with clients := clientsAll }).setClient c', c', [])

/-! ## Frame handlers (the websocket handlers file) -/

/-- The handler a frame is routed to by `HandleMessage`'s switch. -/
inductive HandlerChoice where
  | identify
  | heartbeat
  | presenceUpdate
  | focusChange
  | typingStart
  | typingStop
  | messageCreate
  | messageEdit
  | messageDelete
  | messageAck
deriving DecidableEq, Repr

/-- Outcome of `HandleMessage`'s authentication gate and opcode switch:
either a handler runs, or the frame is rejected with an error frame sent
to the session. -/
inductive RouteResult where
  | runs (which : HandlerChoice)
  | rejected (frame : Message)
deriving DecidableEq, Repr

/-- handlers `HandleMessage`: any frame on an unidentified session whose
opcode is not Identify is rejected with `error(4001)` before the switch;
the switch then routes by opcode, with unknown opcodes rejected with
`error(4002)`. -/
def HandleMessage (identified : Bool) (op : Nat) : RouteResult :=
  if !identified && op != OpIdentify then
    .rejected (errorFrame 4001 "not authenticated")
  else if op == OpIdentify then .runs .identify
  else if op == OpHeartbeat then .runs .heartbeat
  else if op == OpPresenceUpdate then .runs .presenceUpdate
  else if op == OpFocusChange then .runs .focusChange
  else if op == OpTypingStart then .runs .typingStart
  else if op == OpTypingStop then .runs .typingStop
  else if op == OpMessageCreate then .runs .messageCreate
  else if op == OpMessageEdit then .runs .messageEdit
  else if op == OpMessageDelete then .runs .messageDelete
  else if op == OpMessageAck then .runs .messageAck
  else .rejected (errorFrame 4002 "unknown opcode")

/-- The external collaborators of handleIdentify.  `tokenToUser` models
`authhelper.GetUserIDFromToken` composed with the uuid parse (`none` on
any failure or empty result), `getUser` the `database.DB.Where("id =
?").First(&user)` fetch, `memberships`/`participations` the two queries of
`LoadUserSubscriptions`, and `relevantUsers` the read-only
`loadRelevantUsers` aggregation of friends, conversation participants and
server members with their presences. -/
structure IdentifyEnv where
  tokenToUser : String → Option Nat
  getUser : Nat → Option User
  memberships : Nat → List Nat
  participations : Nat → List Nat
  relevantUsers : Nat → List UserWithPresence

/-- hub.go `LoadUserSubscriptions`: subscribe the session to every server
membership and every DM participation read from the store. -/
def Hub.LoadUserSubscriptions (h : Hub) (env : IdentifyEnv) (c : Client) : Hub × Client :=
  let p := (env.memberships c.userID).foldl
    (fun (p : Hub × Client) sid => p.1.SubscribeToServer p.2 sid) (h, c)
  (env.participations c.userID).foldl
    (fun (p : Hub × Client) kid => p.1.SubscribeToConversation p.2 kid) p

/-- handlers `handleIdentify`.  A second Identify is rejected with
`error(4003)` before anything is touched; a missing/invalid payload yields
`error(4000)`; an empty or unresolvable token, or an unknown user, yields
an `InvalidSession` frame; otherwise the client is registered, its
subscriptions are loaded, presence is set online, the Ready frame is sent
and the online presence change is broadcast (as a goroutine, modelled as a
trailing effect; the Go code passes `&types.Activity{}` there). -/
def Hub.handleIdentify (h : Hub) (env : IdentifyEnv) (c : Client)
    (d : Option IdentifyPayload) : Hub × Client × List (Nat × Message) × List HubEffect :=
  if c.identified then
    (h, c, [(c.cid, errorFrame 4003 "already identified")], [])
  else
    match d with
    | none => (h, c, [(c.cid, errorFrame 4000 "invalid payload")], [])
    | some payload =>
      if payload.token == "" then
        (h, c, [(c.cid, { op := OpInvalidSession })], [])
      else
        match env.tokenToUser payload.token with
        | none => (h, c, [(c.cid, { op := OpInvalidSession })], [])
        | some userID =>
          match env.getUser userID with
          | none => (h, c, [(c.cid, { op := OpInvalidSession })], [])
          | some user =>
            let userBrief : UserBrief :=
              { id := user.id, username := user.username, domain := user.domain,
                email := user.email, profilePicURL := user.profilePicURL }
            let hc := h.RegisterIdentifiedClient c userID userBrief
            let hc := hc.1.LoadUserSubscriptions env hc.2
            let users := env.relevantUsers userID
            (hc.1, hc.2,
             [(hc.2.cid, { op := OpReady,
                           data := some (.ready { user := userBrief,
                                                  sessionID := hc.2.sessionID,
                                                  users := users }) })],
             [HubEffect.setOnline userID "online" none,
              HubEffect.broadcastPresence userID "online" (some {})])

/-- handlers `handleHeartbeat`: refresh the presence TTL when identified,
always answer with a HeartbeatAck carrying the current time. -/
def Hub.handleHeartbeat (c : Client) (nowMs : Int) :
    List (Nat × Message) × List HubEffect :=
  (([(c.cid, { op := OpHeartbeatAck,
               data := some (.heartbeatAck { timestamp := nowMs }) })]),
   if c.identified then [HubEffect.refreshPresence c.userID] else [])

/-- The `validStatuses` set of handlePresenceUpdate. -/
def validStatus (s : String) : Bool :=
  s == "online" || s == "idle" || s == "dnd" || s == "offline"

/-- handlers `handlePresenceUpdate`: a malformed payload is silently
dropped; an invalid status yields `error(4000, "invalid status")`;
otherwise the session status/activity are set, presence is written and the
change broadcast. -/
def Hub.handlePresenceUpdate (h : Hub) (c : Client) (d : Option PresenceUpdatePayload) :
    Hub × Client × List (Nat × Message) × List HubEffect :=
  match d with
  | none => (h, c, [], [])
  | some payload =>
    if !(validStatus payload.status) then
      (h, c, [(c.cid, errorFrame 4000 "invalid status")], [])
    else
      let c' := { c with status := payload.status, activity := payload.activity }
      (h.setClient c', c', [],
       [HubEffect.setOnline c.userID payload.status payload.activity,
        HubEffect.broadcastPresence c.userID payload.status payload.activity])

/-- handlers `handleFocusChange`: a malformed payload is silently dropped;
a server_id not in the session's subscriptions, or a conversation_id not
in its conversations, silently drops the change; otherwise the focus
triple is set verbatim (the channel_id is never validated) and an
acknowledgement echoing the frame's nonce is sent. -/
def Hub.handleFocusChange (h : Hub) (c : Client) (d : Option FocusPayload)
    (nonce : String) : Hub × Client × List (Nat × Message) :=
  match d with
  | none => (h, c, [])
  | some payload =>
    if (match payload.serverID with
        | some s => !(c.IsInServer s)
        | none => false) then (h, c, [])
    else if (match payload.conversationID with
             | some k => !(c.IsInConversation k)
             | none => false) then (h, c, [])
    else
      let c' := c.SetFocus payload.channelID payload.serverID payload.conversationID
      (h.setClient c', c',
       [(c.cid, ackFrame nonce
          (.focusAck payload.channelID payload.serverID payload.conversationID))])

/-- handlers `handleTypingStart`: stamp the sender's user onto the payload;
with both channel_id and server_id present, require server membership and
dispatch TYPING_START to the whole server index; otherwise with a
conversation_id present, require conversation membership and dispatch to
the whole conversation index.  (The dispatch goes through the unfiltered
`DispatchToServer` / `DispatchToConversation`, not the focus-filtered
`DispatchTypingTo*` helpers.) -/
def Hub.handleTypingStart (h : Hub) (c : Client) (d : Option TypingPayload) :
    List (Nat × Message) :=
  match d with
  | none => []
  | some payload =>
    let payload := { payload with userID := c.userID, user := c.user }
    match payload.channelID, payload.serverID with
    | some _, some sid =>
        if !(c.IsInServer sid) then []
        else h.DispatchToServer sid EventTypingStart (.typing payload)
    | _, _ =>
        match payload.conversationID with
        | some kid =>
            if !(c.IsInConversation kid) then []
            else h.DispatchToConversation kid EventTypingStart (.typing payload)
        | none => []

/-- handlers `handleTypingStop` (identical to handleTypingStart with the
TYPING_STOP event). -/
def Hub.handleTypingStop (h : Hub) (c : Client) (d : Option TypingPayload) :
    List (Nat × Message) :=
  match d with
  | none => []
  | some payload =>
    let payload := { payload with userID := c.userID, user := c.user }
    match payload.channelID, payload.serverID with
    | some _, some sid =>
        if !(c.IsInServer sid) then []
        else h.DispatchToServer sid EventTypingStop (.typing payload)
    | _, _ =>
        match payload.conversationID with
        | some kid =>
            if !(c.IsInConversation kid) then []
            else h.DispatchToConversation kid EventTypingStop (.typing payload)
        | none => []

/-- handlers `handleChannelMessageCreate`.  `newID`/`now` are the id and
createdAt the store assigns to the created row, `persistOk` whether the
`DB.Create` succeeds (its failure yields `error(5000)`). -/
def Hub.handleChannelMessageCreate (h : Hub) (c : Client)
    (d : Option ChannelMessagePayload) (nonce : String) (db : DB)
    (newID now : Nat) (persistOk : Bool) : List (Nat × Message) × DB :=
  match d with
  | none => ([(c.cid, errorFrame 4000 "invalid payload")], db)
  | some payload =>
    if !(c.IsInServer payload.serverID) then
      ([(c.cid, errorFrame 4003 "not in server")], db)
    else
      match findChannel db payload.channelID payload.serverID with
      | none => ([(c.cid, errorFrame 4004 "channel not found")], db)
      | some channel =>
        if !persistOk then
          ([(c.cid, errorFrame 5000 "failed to create message")], db)
        else
          let dbMsg : ChannelMessage :=
            { id := newID, channelID := channel.id, authorID := c.userID,
              content := payload.content, attachments := "[]",
              replyToID := payload.replyToID, createdAt := now }
          let db' := { db with channelMessages := db.channelMessages ++ [dbMsg] }
          let responsePayload : ChannelMessagePayload :=
            { id := dbMsg.id, channelID := dbMsg.channelID, serverID := payload.serverID,
              authorID := dbMsg.authorID, author := c.user, content := dbMsg.content,
              replyToID := dbMsg.replyToID, createdAt := dbMsg.createdAt }
          let sends := h.DispatchChannelMessage payload.serverID payload.channelID
            responsePayload
          (if nonce != "" then sends ++ [(c.cid, ackFrame nonce (.createAck dbMsg.id))]
           else sends, db')

/-- handlers `handleDMMessageCreate` (DM twin: conversation membership
guard, create, focus-aware dispatch, sender's last_read_at touch, nonce
ack). -/
def Hub.handleDMMessageCreate (h : Hub) (c : Client)
    (d : Option DMMessagePayload) (nonce : String) (db : DB)
    (newID now : Nat) (persistOk : Bool) : List (Nat × Message) × DB :=
  match d with
  | none => ([(c.cid, errorFrame 4000 "invalid payload")], db)
  | some payload =>
    if !(c.IsInConversation payload.conversationID) then
      ([(c.cid, errorFrame 4003 "not in conversation")], db)
    else
      if !persistOk then
        ([(c.cid, errorFrame 5000 "failed to create message")], db)
      else
        let dbMsg : DirectMessage :=
          { id := newID, conversationID := payload.conversationID, authorID := c.userID,
            content := payload.content, attachments := "[]",
            replyToID := payload.replyToID, createdAt := now }
        let db' := { db with directMessages := db.directMessages ++ [dbMsg] }
        let responsePayload : DMMessagePayload :=
          { id := dbMsg.id, conversationID := dbMsg.conversationID,
            authorID := dbMsg.authorID, author := c.user, content := dbMsg.content,
            replyToID := dbMsg.replyToID, createdAt := dbMsg.createdAt }
        let sends := h.DispatchDMMessage payload.conversationID responsePayload
        let db'' :=
          { db' with dmParticipants :=
              touchLastRead db'.dmParticipants payload.conversationID c.userID now }
        (if nonce != "" then sends ++ [(c.cid, ackFrame nonce (.createAck dbMsg.id))]
         else sends, db'')

/-- The fields handleMessageEdit pulls out of its raw JSON map.  `id` is
`none` when the `id` string is missing or fails the uuid parse;
`channelID`/`conversationID` are `some` exactly when the key is present as
a string (a failed uuid parse leaves the Go zero uuid, modelled as the
value `0`); `serverID` is `0` when missing or unparsable. -/
structure EditInput where
  id : Option Nat := none
  content : String := ""
  channelID : Option Nat := none
  serverID : Nat := 0
  conversationID : Option Nat := none
deriving DecidableEq, Repr

/-- handlers `handleMessageEdit`.  After the `error(4000)` payload guards,
the channel branch requires server membership, updates the rows matching
`(id, channel_id, author_id = caller)` and, when no row was affected,
answers `error(4004)`; otherwise it dispatches CHANNEL_MESSAGE_UPDATE to
the whole server index.  The conversation branch is the DM twin.  A
payload with neither key does nothing. -/
def Hub.handleMessageEdit (h : Hub) (c : Client) (d : Option EditInput)
    (db : DB) (now : Nat) : List (Nat × Message) × DB :=
  match d with
  | none => ([(c.cid, errorFrame 4000 "invalid payload")], db)
  | some inp =>
    match inp.id with
    | none => ([(c.cid, errorFrame 4000 "invalid payload")], db)
    | some messageID =>
      if inp.content == "" then ([(c.cid, errorFrame 4000 "invalid payload")], db)
      else
        match inp.channelID with
        | some channelID =>
          if !(c.IsInServer inp.serverID) then
            ([(c.cid, errorFrame 4003 "not in server")], db)
          else
            let res := updateChannelMessages db.channelMessages messageID channelID
              c.userID inp.content now
            if res.2 == 0 then
              ([(c.cid, errorFrame 4004 "message not found or not authorized")],
               { db with channelMessages := res.1 })
            else
              (h.DispatchToServer inp.serverID EventChannelMessageUpdate
                 (.channelMessage { id := messageID, channelID := channelID,
                                    serverID := inp.serverID, authorID := c.userID,
                                    content := inp.content, editedAt := some now }),
               { db with channelMessages := res.1 })
        | none =>
          match inp.conversationID with
          | some convID =>
            if !(c.IsInConversation convID) then
              ([(c.cid, errorFrame 4003 "not in conversation")], db)
            else
              let res := updateDirectMessages db.directMessages messageID convID
                c.userID inp.content now
              if res.2 == 0 then
                ([(c.cid, errorFrame 4004 "message not found or not authorized")],
                 { db with directMessages := res.1 })
              else
                (h.DispatchToConversation convID EventDMMessageUpdate
                   (.dmMessage { id := messageID, conversationID := convID,
                                 authorID := c.userID, content := inp.content,
                                 editedAt := some now }),
                 { db with directMessages := res.1 })
          | none => ([], db)

/-- handlers `handleMessageDelete`: same scoping as edit; a matching hard
delete dispatches the request payload as the `*_DELETE` event to the whole
target index; zero affected rows yield `error(4004)`. -/
def Hub.handleMessageDelete (h : Hub) (c : Client) (d : Option MessageDeletePayload)
    (db : DB) : List (Nat × Message) × DB :=
  match d with
  | none => ([(c.cid, errorFrame 4000 "invalid payload")], db)
  | some payload =>
    match payload.channelID, payload.serverID with
    | some channelID, some serverID =>
      if !(c.IsInServer serverID) then
        ([(c.cid, errorFrame 4003 "not in server")], db)
      else
        let res := deleteChannelMessages db.channelMessages payload.messageID channelID
          c.userID
        if res.2 == 0 then
          ([(c.cid, errorFrame 4004 "message not found or not authorized")],
           { db with channelMessages := res.1 })
        else
          (h.DispatchToServer serverID EventChannelMessageDelete (.messageDelete payload),
           { db with channelMessages := res.1 })
    | _, _ =>
      match payload.conversationID with
      | some convID =>
        if !(c.IsInConversation convID) then
          ([(c.cid, errorFrame 4003 "not in conversation")], db)
        else
          let res := deleteDirectMessages db.directMessages payload.messageID convID
            c.userID
          if res.2 == 0 then
            ([(c.cid, errorFrame 4004 "message not found or not authorized")],
             { db with directMessages := res.1 })
          else
            (h.DispatchToConversation convID EventDMMessageDelete (.messageDelete payload),
             { db with directMessages := res.1 })
      | none => ([], db)

/-- handlers `handleMessageAck`: a malformed payload, a missing
conversation_id, or a conversation the session is not subscribed to are
all silently dropped (no error frame); otherwise the caller's last_read_at
is set and MESSAGE_ACK is dispatched to the conversation index. -/
def Hub.handleMessageAck (h : Hub) (c : Client) (d : Option MessageAckPayload)
    (db : DB) (now : Nat) : List (Nat × Message) × DB :=
  match d with
  | none => ([], db)
  | some payload =>
    match payload.conversationID with
    | some kid =>
      if !(c.IsInConversation kid) then ([], db)
      else
        let db' :=
          { db with dmParticipants := touchLastRead db.dmParticipants kid c.userID now }
        (h.DispatchToConversation kid EventMessageAck
           (.messageAckEvent c.userID payload.conversationID payload.messageID now),
         db')
    | none => ([], db)

/-! ## Helper lemmas on the index operations -/

theorem filterMap_keyed_not_mem {α : Type} (f : Nat → Option (Nat × α)) (L : List Nat)
    (hf : ∀ x p, f x = some p → p.1 = x) (cid : Nat) (hmem : cid ∉ L) :
    (L.filterMap f).filter (fun e => e.1 == cid) = [] := by
  induction L with
  | nil => rfl
  | cons a L ih =>
    have hane : a ≠ cid := fun hcontra => hmem (hcontra ▸ List.mem_cons_self a L)
    have hmem' : cid ∉ L := fun hcontra => hmem (List.mem_cons_of_mem _ hcontra)
    cases hfa : f a with
    | none => simpa [List.filterMap_cons, hfa] using ih hmem'
    | some p =>
      have hp : p.1 = a := hf a p hfa
      have hb : (p.1 == cid) = false := by simp [hp, hane]
      simp [List.filterMap_cons, hfa, List.filter_cons, hb, ih hmem']

theorem filterMap_keyed_mem {α : Type} (f : Nat → Option (Nat × α)) (L : List Nat)
    (hf : ∀ x p, f x = some p → p.1 = x) (cid : Nat) (hnd : L.Nodup) (hmem : cid ∈ L) :
    (L.filterMap f).filter (fun e => e.1 == cid) = (f cid).toList := by
  induction L with
  | nil => cases hmem
  | cons a L ih =>
    rcases List.nodup_cons.mp hnd with ⟨hna, hndL⟩
    rcases List.mem_cons.mp hmem with heq | hmemL
    · subst heq
      cases hfa : f cid with
      | none =>
        simp [List.filterMap_cons, hfa, filterMap_keyed_not_mem f L hf cid hna]
      | some p =>
        have hp : p.1 = cid := hf cid p hfa
        simp [List.filterMap_cons, hfa, List.filter_cons, hp,
              filterMap_keyed_not_mem f L hf cid hna]
    · have hacid : a ≠ cid := fun hcontra => hna (hcontra ▸ hmemL)
      cases hfa : f a with
      | none => simpa [List.filterMap_cons, hfa] using ih hndL hmemL
      | some p =>
        have hp : p.1 = a := hf a p hfa
        have hb : (p.1 == cid) = false := by simp [hp, hacid]
        simp [List.filterMap_cons, hfa, List.filter_cons, hb, ih hndL hmemL]

theorem idxRemove_cons (e : Nat × List Nat) (m : HubIndex) (k cid : Nat) :
    idxRemove (e :: m) k cid =
      if e.1 == k then
        (if (e.2.filter (fun x => x != cid)).isEmpty then idxRemove m k cid
         else (e.1, e.2.filter (fun x => x != cid)) :: idxRemove m k cid)
      else e :: idxRemove m k cid := rfl

theorem idxLookup_cons (e : Nat × List Nat) (m : HubIndex) (v : Nat) :
    idxLookup (e :: m) v = if e.1 == v then e.2 else idxLookup m v := by
  unfold idxLookup
  cases hev : (e.1 == v) <;> simp [List.find?_cons, hev]

theorem idxRemove_not_mem_self (m : HubIndex) (k cid : Nat) :
    cid ∉ idxLookup (idxRemove m k cid) k := by
  induction m with
  | nil => simp [idxRemove, idxLookup]
  | cons e m ih =>
    rw [idxRemove_cons]
    cases hbek : (e.1 == k) with
    | false => simpa [hbek, idxLookup_cons] using ih
    | true =>
      cases hemp : (e.2.filter (fun x => x != cid)).isEmpty with
      | true => simpa [hbek, hemp] using ih
      | false => simp [hbek, hemp, idxLookup_cons, List.mem_filter]

theorem idxRemove_other_key (m : HubIndex) (k cid v : Nat) (hvk : v ≠ k) :
    idxLookup (idxRemove m k cid) v = idxLookup m v := by
  induction m with
  | nil => rfl
  | cons e m ih =>
    rw [idxRemove_cons]
    cases hbek : (e.1 == k) with
    | false =>
      cases hbev : (e.1 == v) with
      | true => simp [hbek, idxLookup_cons, hbev]
      | false => simp [hbek, idxLookup_cons, hbev, ih]
    | true =>
      have hek : e.1 = k := by simpa using hbek
      have hbev : (e.1 == v) = false := by
        rw [hek]
        exact beq_eq_false_iff_ne.mpr (fun hcontra => hvk hcontra.symm)
      cases hemp : (e.2.filter (fun x => x != cid)).isEmpty with
      | true => simp [hbek, hemp, idxLookup_cons, hbev, ih]
      | false => simp [hbek, hemp, idxLookup_cons, hbev, ih]

theorem idxRemove_preserves_not_mem (m : HubIndex) (k cid v : Nat)
    (hnm : cid ∉ idxLookup m v) : cid ∉ idxLookup (idxRemove m k cid) v := by
  by_cases hvk : v = k
  · subst hvk
    exact idxRemove_not_mem_self m v cid
  · rw [idxRemove_other_key m k cid v hvk]
    exact hnm

theorem foldl_idxRemove_not_mem (ks : List Nat) (m : HubIndex) (cid v : Nat)
    (hv : v ∈ ks ∨ cid ∉ idxLookup m v) :
    cid ∉ idxLookup (ks.foldl (fun acc k => idxRemove acc k cid) m) v := by
  induction ks generalizing m with
  | nil =>
    rcases hv with hcontra | hnm
    · cases hcontra
    · exact hnm
  | cons a ks ih =>
    rcases hv with hmem | hnm
    · rcases List.mem_cons.mp hmem with heq | hmem'
      · subst heq
        exact ih (idxRemove m v cid) (Or.inr (idxRemove_not_mem_self m v cid))
      · exact ih _ (Or.inl hmem')
    · exact ih _ (Or.inr (idxRemove_preserves_not_mem m a cid v hnm))

theorem mem_idxLookup_exists (m : HubIndex) (u cid : Nat) (hm : cid ∈ idxLookup m u) :
    ∃ e ∈ m, e.1 = u ∧ cid ∈ e.2 := by
  unfold idxLookup at hm
  cases hfind : m.find? (fun e => e.1 == u) with
  | none =>
    rw [hfind] at hm
    cases hm
  | some e =>
    rw [hfind] at hm
    refine ⟨e, List.mem_of_find?_eq_some hfind, ?_, hm⟩
    simpa using List.find?_some hfind

/-! ## Theorems -/

/-- C8: a `Send` on a session whose queue already holds 256 frames does not
enqueue and leaves the client (queue, open connection) untouched, while a
`Send` on a queue below capacity appends the frame at the tail (FIFO). -/
theorem Send_queue_boundary (c : Client) (m : Message) :
    (c.sendQueue.length = sendQueueCapacity → c.Send m = c) ∧
    (c.sendQueue.length < sendQueueCapacity →
      c.Send m = { c with sendQueue := c.sendQueue ++ [m] }) := by
  constructor
  · intro hfull
    simp [Client.Send, hfull]
  · intro hlt
    simp [Client.Send, hlt]

/-- Witness for C8 at a concretely full queue and at an empty queue. -/
theorem Send_queue_boundary_witness :
    ({ cid := 1, sendQueue := List.replicate 256 (errorFrame 4000 "x") } : Client).Send
        (errorFrame 4000 "y") =
      { cid := 1, sendQueue := List.replicate 256 (errorFrame 4000 "x") } ∧
    ({ cid := 1 } : Client).Send (errorFrame 4000 "y") =
      { cid := 1, sendQueue := [errorFrame 4000 "y"] } := by
  constructor
  · exact (Send_queue_boundary _ _).1 (by rw [List.length_replicate]; rfl)
  · exact (Send_queue_boundary _ _).2 (by simp [sendQueueCapacity])

/-- C9: a FocusChange whose payload carries only a channel_id always
succeeds: the focused channel is set to the given id with no membership
check, and an ack echoing the nonce is sent; only a present server_id or
conversation_id is validated against the subscription sets (a failed check
silently drops the change). -/
theorem focusChange_channel_unvalidated :
    (∀ (h : Hub) (c : Client) (ch : Nat) (nonce : String),
       h.handleFocusChange c (some { channelID := some ch }) nonce =
         (h.setClient (c.SetFocus (some ch) none none), c.SetFocus (some ch) none none,
          [(c.cid, ackFrame nonce (.focusAck (some ch) none none))])) ∧
    (∀ (h : Hub) (c : Client) (p : FocusPayload) (nonce : String) (s : Nat),
       p.serverID = some s → c.IsInServer s = false →
       h.handleFocusChange c (some p) nonce = (h, c, [])) ∧
    (∀ (h : Hub) (c : Client) (p : FocusPayload) (nonce : String) (k : Nat),
       p.serverID = none → p.conversationID = some k → c.IsInConversation k = false →
       h.handleFocusChange c (some p) nonce = (h, c, [])) := by
  refine ⟨fun h c ch nonce => rfl, ?_, ?_⟩
  · intro h c p nonce s hs hmem
    rcases p with ⟨pc, ps, pk⟩
    simp only at hs
    subst hs
    simp [Hub.handleFocusChange, hmem]
  · intro h c p nonce k hs hk hmem
    rcases p with ⟨pc, ps, pk⟩
    simp only at hs hk
    subst hs
    subst hk
    simp [Hub.handleFocusChange, hmem]

/-- Witness for C9: a session with no subscriptions at all still gets its
channel focus set and the nonce echoed, while a server or conversation
focus outside its subscriptions is silently dropped. -/
theorem focusChange_channel_unvalidated_witness :
    (({} : Hub).handleFocusChange { cid := 1 } (some { channelID := some 9 }) "n1" =
      (({} : Hub).setClient (({ cid := 1 } : Client).SetFocus (some 9) none none),
       ({ cid := 1 } : Client).SetFocus (some 9) none none,
       [(1, ackFrame "n1" (.focusAck (some 9) none none))])) ∧
    (({} : Hub).handleFocusChange { cid := 1 } (some { serverID := some 4 }) "n2" =
      ({}, { cid := 1 }, [])) ∧
    (({} : Hub).handleFocusChange { cid := 1 } (some { conversationID := some 4 }) "n3" =
      ({}, { cid := 1 }, [])) := by
  refine ⟨focusChange_channel_unvalidated.1 {} { cid := 1 } 9 "n1", ?_, ?_⟩
  · exact focusChange_channel_unvalidated.2.1 {} { cid := 1 } _ "n2" 4 rfl rfl
  · exact focusChange_channel_unvalidated.2.2 {} { cid := 1 } _ "n3" 4 rfl rfl rfl

/-- C6: on a not-yet-identified session, every opcode other than Identify
is rejected with `error(4001, "not authenticated")` before any handler
runs, and Identify is the one opcode that reaches its handler. -/
theorem handleMessage_connected_gate (op : Nat) :
    (op ≠ OpIdentify →
       HandleMessage false op = .rejected (errorFrame 4001 "not authenticated")) ∧
    (op = OpIdentify → HandleMessage false op = .runs .identify) := by
  constructor
  · intro hop
    have hb : (op != OpIdentify) = true := by
      simpa using hop
    simp [HandleMessage, hb]
  · intro hop
    subst hop
    rfl

/-- Witness for C6 at opcode 20 (TypingStart) and at Identify itself. -/
theorem handleMessage_connected_gate_witness :
    HandleMessage false OpTypingStart = .rejected (errorFrame 4001 "not authenticated") ∧
    HandleMessage false OpIdentify = .runs .identify := by
  constructor
  · exact (handleMessage_connected_gate OpTypingStart).1 (by decide)
  · exact (handleMessage_connected_gate OpIdentify).2 rfl

/-- C5: a second Identify on an already-identified session yields
`error(4003, "already identified")` and returns before touching anything:
the client (userID, user, subscriptions, focus, status) and every hub
index come back unchanged, and no presence effect fires. -/
theorem handleIdentify_second_identify (h : Hub) (env : IdentifyEnv) (c : Client)
    (d : Option IdentifyPayload) (hid : c.identified = true) :
    h.handleIdentify env c d =
      (h, c, [(c.cid, errorFrame 4003 "already identified")], []) := by
  simp [Hub.handleIdentify, hid]

/-- Witness for C5 on a concrete identified client. -/
theorem handleIdentify_second_identify_witness :
    ({ cid := 1, identified := true } : Client).identified = true ∧
    ({} : Hub).handleIdentify
        { tokenToUser := fun _ => none, getUser := fun _ => none,
          memberships := fun _ => [], participations := fun _ => [],
          relevantUsers := fun _ => [] }
        { cid := 1, identified := true } none =
      ({}, { cid := 1, identified := true },
       [(1, errorFrame 4003 "already identified")], []) := by
  exact ⟨rfl, handleIdentify_second_identify _ _ _ _ rfl⟩

/-- C2: on a channel-message fan-out for `(server S, channel C)`, every
session in `byServer[S]` whose focused channel equals `C` receives exactly
one CHANNEL_MESSAGE_CREATE frame with the full payload, and every other
session in `byServer[S]` receives exactly one CHANNEL_MESSAGE_NOTIFY frame
whose payload carries exactly channel_id, server_id, message_id and
author_id. -/
theorem DispatchChannelMessage_focus_routing (h : Hub) (S C : Nat)
    (full : ChannelMessagePayload) (cid : Nat) (c : Client)
    (hnd : (idxLookup h.serverClients S).Nodup)
    (hmem : cid ∈ idxLookup h.serverClients S)
    (hres : h.getClient cid = some c) :
    (h.DispatchChannelMessage S C full).filter (fun e => e.1 == cid) =
      [(cid,
        if c.IsFocusedOnChannel C then
          mkDispatch EventChannelMessageCreate (.channelMessage full)
        else
          mkDispatch EventChannelMessageNotify (.channelMessageNotify
            { channelID := C, serverID := S, messageID := full.id,
              authorID := full.authorID }))] := by
  have hf : ∀ x p, (fun cid =>
      match h.getClient cid with
      | some c =>
          if c.IsFocusedOnChannel C then
            some (cid, mkDispatch EventChannelMessageCreate (.channelMessage full))
          else
            some (cid, mkDispatch EventChannelMessageNotify (.channelMessageNotify
              { channelID := C, serverID := S, messageID := full.id,
                authorID := full.authorID }))
      | none => none) x = some p → p.1 = x := by
    intro x p hx
    dsimp only at hx
    cases hgx : h.getClient x with
    | none => rw [hgx] at hx; cases hx
    | some cx =>
      rw [hgx] at hx
      dsimp only at hx
      split at hx <;> (cases hx; rfl)
  unfold Hub.DispatchChannelMessage
  rw [filterMap_keyed_mem _ _ hf cid hnd hmem]
  cases hfoc : c.IsFocusedOnChannel C <;> simp [hres, hfoc]

/-- Witness for C2 on a concrete two-session hub: session 1 is focused on
channel 3 of server 2 and receives the full frame once; session 2 is
subscribed but unfocused and receives the notify frame once. -/
theorem DispatchChannelMessage_focus_routing_witness :
    (({ store := [{ cid := 1, userID := 10, identified := true, servers := [2],
                    focusedChannel := some 3, focusedServer := some 2 },
                  { cid := 2, userID := 11, identified := true, servers := [2] }],
        clients := [1, 2],
        userClients := [(10, [1]), (11, [2])],
        serverClients := [(2, [1, 2])] } : Hub).DispatchChannelMessage 2 3
          { id := 7, channelID := 3, serverID := 2, authorID := 10, content := "hi" }).filter
        (fun e => e.1 == 1) =
      [(1, mkDispatch EventChannelMessageCreate (.channelMessage
          { id := 7, channelID := 3, serverID := 2, authorID := 10, content := "hi" }))] ∧
    (({ store := [{ cid := 1, userID := 10, identified := true, servers := [2],
                    focusedChannel := some 3, focusedServer := some 2 },
                  { cid := 2, userID := 11, identified := true, servers := [2] }],
        clients := [1, 2],
        userClients := [(10, [1]), (11, [2])],
        serverClients := [(2, [1, 2])] } : Hub).DispatchChannelMessage 2 3
          { id := 7, channelID := 3, serverID := 2, authorID := 10, content := "hi" }).filter
        (fun e => e.1 == 2) =
      [(2, mkDispatch EventChannelMessageNotify (.channelMessageNotify
          { channelID := 3, serverID := 2, messageID := 7, authorID := 10 }))] := by
  constructor
  · exact DispatchChannelMessage_focus_routing _ 2 3 _ 1
      { cid := 1, userID := 10, identified := true, servers := [2],
        focusedChannel := some 3, focusedServer := some 2 }
      (by decide) (by decide) rfl
  · exact DispatchChannelMessage_focus_routing _ 2 3 _ 2
      { cid := 2, userID := 11, identified := true, servers := [2] }
      (by decide) (by decide) rfl

/-- C1 (evaluation of the code at the failing input): `handleTypingStart`
routes DM typing through the unfiltered `DispatchToConversation`, so in a
hub where `byConversation[5] = {1, 2}` and session 2 has no focused
conversation, a TYPING_START from session 1 is delivered to session 2 all
the same — the focus-filtered `DispatchTypingToConversation` that the
claim describes is never invoked by the handler. -/
theorem typingStart_ignores_recipient_focus :
    (({ cid := 2, userID := 11, identified := true,
        conversations := [5] } : Client).focusedConversation = none) ∧
    ({ store := [{ cid := 1, userID := 10, identified := true, conversations := [5] },
                 { cid := 2, userID := 11, identified := true, conversations := [5] }],
       clients := [1, 2],
       userClients := [(10, [1]), (11, [2])],
       conversationClients := [(5, [1, 2])] } : Hub).handleTypingStart
        { cid := 1, userID := 10, identified := true, conversations := [5] }
        (some { conversationID := some 5 }) =
      [(1, mkDispatch EventTypingStart (.typing { conversationID := some 5, userID := 10 })),
       (2, mkDispatch EventTypingStart (.typing { conversationID := some 5, userID := 10 }))] := by
  exact ⟨rfl, rfl⟩

theorem handleUnregister_eq_of_identified (h : Hub) (c : Client)
    (hmem : h.clients.contains c.cid = true) (hid : c.identified = true) :
    h.handleUnregister c =
      (({ h with
          clients := h.clients.filter (fun x => x != c.cid)
          userClients := idxRemove h.userClients c.userID c.cid
          serverClients :=
            c.servers.foldl (fun m sid => idxRemove m sid c.cid) h.serverClients
          conversationClients :=
            c.conversations.foldl (fun m kid => idxRemove m kid c.cid)
              h.conversationClients }).setClient { c with sendClosed := true },
       { c with sendClosed := true },
       match h.userClients.find? (fun e => e.1 == c.userID) with
       | some e =>
           if (e.2.filter (fun x => x != c.cid)).isEmpty then
             [HubEffect.setOffline c.userID,
              HubEffect.broadcastPresence c.userID "offline" none]
           else []
       | none => []) := by
  unfold Hub.handleUnregister
  rw [hmem, hid]
  rfl

theorem handleUnregister_eq_of_unidentified (h : Hub) (c : Client)
    (hmem : h.clients.contains c.cid = true) (hid : c.identified = false) :
    h.handleUnregister c =
      (({ h with clients :=
            h.clients.filter (fun x => x != c.cid) }).setClient { c with sendClosed := true },
       { c with sendClosed := true }, []) := by
  unfold Hub.handleUnregister
  rw [hmem, hid]
  rfl

/-- C7: after `handleUnregister` of a registered session completes — with
the hub indices well-formed for that session, i.e. it appears in
`byUser[u]` only when identified as `u`, in `byServer[v]` only when it is
subscribed to `v`, and in `byConversation[k]` only when subscribed to `k`,
exactly the invariants the hub maintains — the session is absent from
`all`, from `byUser` for every user, from `byServer` for every server and
from `byConversation` for every conversation, and its send queue is
closed. -/
theorem handleUnregister_removes_everywhere (h : Hub) (c : Client)
    (hmem : h.clients.contains c.cid = true)
    (huser : ∀ e ∈ h.userClients, c.cid ∈ e.2 → c.identified = true ∧ e.1 = c.userID)
    (hsrv : ∀ e ∈ h.serverClients, c.cid ∈ e.2 → c.identified = true ∧ e.1 ∈ c.servers)
    (hconv : ∀ e ∈ h.conversationClients,
       c.cid ∈ e.2 → c.identified = true ∧ e.1 ∈ c.conversations) :
    c.cid ∉ (h.handleUnregister c).1.clients ∧
    (∀ u, c.cid ∉ idxLookup (h.handleUnregister c).1.userClients u) ∧
    (∀ v, c.cid ∉ idxLookup (h.handleUnregister c).1.serverClients v) ∧
    (∀ k, c.cid ∉ idxLookup (h.handleUnregister c).1.conversationClients k) ∧
    (h.handleUnregister c).2.1.sendClosed = true := by
  cases hid : c.identified with
  | true =>
    rw [handleUnregister_eq_of_identified h c hmem hid]
    dsimp only [Hub.setClient]
    refine ⟨?_, ?_, ?_, ?_, rfl⟩
    · intro hcontra
      rcases List.mem_filter.mp hcontra with ⟨_, hne⟩
      simp at hne
    · intro u
      by_cases hu : u = c.userID
      · subst hu
        exact idxRemove_not_mem_self h.userClients _ c.cid
      · rw [idxRemove_other_key h.userClients c.userID c.cid u
          (fun hcontra => hu hcontra)]
        intro hcontra
        rcases mem_idxLookup_exists h.userClients u c.cid hcontra with ⟨e, he, he1, hce⟩
        exact hu (he1 ▸ (huser e he hce).2)
    · intro v
      apply foldl_idxRemove_not_mem
      by_cases hv : v ∈ c.servers
      · exact Or.inl hv
      · refine Or.inr (fun hcontra => ?_)
        rcases mem_idxLookup_exists h.serverClients v c.cid hcontra with ⟨e, he, he1, hce⟩
        exact hv (he1 ▸ (hsrv e he hce).2)
    · intro k
      apply foldl_idxRemove_not_mem
      by_cases hk : k ∈ c.conversations
      · exact Or.inl hk
      · refine Or.inr (fun hcontra => ?_)
        rcases mem_idxLookup_exists h.conversationClients k c.cid hcontra with ⟨e, he, he1, hce⟩
        exact hk (he1 ▸ (hconv e he hce).2)
  | false =>
    rw [handleUnregister_eq_of_unidentified h c hmem hid]
    dsimp only [Hub.setClient]
    refine ⟨?_, ?_, ?_, ?_, rfl⟩
    · intro hcontra
      rcases List.mem_filter.mp hcontra with ⟨_, hne⟩
      simp at hne
    · intro u hcontra
      rcases mem_idxLookup_exists h.userClients u c.cid hcontra with ⟨e, he, he1, hce⟩
      rw [(huser e he hce).1] at hid
      cases hid
    · intro v hcontra
      rcases mem_idxLookup_exists h.serverClients v c.cid hcontra with ⟨e, he, he1, hce⟩
      rw [(hsrv e he hce).1] at hid
      cases hid
    · intro k hcontra
      rcases mem_idxLookup_exists h.conversationClients k c.cid hcontra with ⟨e, he, he1, hce⟩
      rw [(hconv e he hce).1] at hid
      cases hid

/-- Witness for C7 on a concrete one-session hub: after unregistering the
identified session 1 (user 10, server 2, conversation 5) it is gone from
`all` and all three indices and its queue is closed. -/
theorem handleUnregister_removes_everywhere_witness :
    (1 : Nat) ∉ (({ store := [{ cid := 1, userID := 10, identified := true,
                                servers := [2], conversations := [5] }],
                    clients := [1], userClients := [(10, [1])],
                    serverClients := [(2, [1])],
                    conversationClients := [(5, [1])] } : Hub).handleUnregister
        { cid := 1, userID := 10, identified := true,
          servers := [2], conversations := [5] }).1.clients ∧
    (∀ u, (1 : Nat) ∉ idxLookup
        (({ store := [{ cid := 1, userID := 10, identified := true,
                        servers := [2], conversations := [5] }],
            clients := [1], userClients := [(10, [1])],
            serverClients := [(2, [1])],
            conversationClients := [(5, [1])] } : Hub).handleUnregister
          { cid := 1, userID := 10, identified := true,
            servers := [2], conversations := [5] }).1.userClients u) ∧
    (∀ v, (1 : Nat) ∉ idxLookup
        (({ store := [{ cid := 1, userID := 10, identified := true,
                        servers := [2], conversations := [5] }],
            clients := [1], userClients := [(10, [1])],
            serverClients := [(2, [1])],
            conversationClients := [(5, [1])] } : Hub).handleUnregister
          { cid := 1, userID := 10, identified := true,
            servers := [2], conversations := [5] }).1.serverClients v) ∧
    (∀ k, (1 : Nat) ∉ idxLookup
        (({ store := [{ cid := 1, userID := 10, identified := true,
                        servers := [2], conversations := [5] }],
            clients := [1], userClients := [(10, [1])],
            serverClients := [(2, [1])],
            conversationClients := [(5, [1])] } : Hub).handleUnregister
          { cid := 1, userID := 10, identified := true,
            servers := [2], conversations := [5] }).1.conversationClients k) ∧
    (({ store := [{ cid := 1, userID := 10, identified := true,
                    servers := [2], conversations := [5] }],
        clients := [1], userClients := [(10, [1])],
        serverClients := [(2, [1])],
        conversationClients := [(5, [1])] } : Hub).handleUnregister
      { cid := 1, userID := 10, identified := true,
        servers := [2], conversations := [5] }).2.1.sendClosed = true := by
  exact handleUnregister_removes_everywhere _ _ (by decide) (by decide) (by decide) (by decide)

/-- C3 (counterexample): a MessageAck for a conversation the identified
session is not subscribed to is silently dropped — the handler returns no
frame at all, so the `error(4003, "not in conversation")` the claim
promises is never sent (the database is untouched, as the claim says). -/
theorem messageAck_unsubscribed_is_silent :
    ({} : Hub).handleMessageAck { cid := 1, userID := 10, identified := true }
        (some { conversationID := some 7, messageID := 3 }) {} 99 = ([], {}) := by
  rfl

theorem map_update_no_match {α : Type} (l : List α) (p : α → Bool) (f : α → α)
    (hnone : ∀ x ∈ l, p x = false) :
    l.map (fun x => if p x then f x else x) = l := by
  induction l with
  | nil => rfl
  | cons a l ih =>
    have ha := hnone a (List.mem_cons_self a l)
    simp [ha, ih (fun x hx => hnone x (List.mem_cons_of_mem _ hx))]

theorem filter_not_no_match {α : Type} (l : List α) (p : α → Bool)
    (hnone : ∀ x ∈ l, p x = false) :
    l.filter (fun x => !(p x)) = l := by
  apply List.filter_eq_self.mpr
  intro a ha
  simp [hnone a ha]

theorem filter_length_beq_zero_of_any {α : Type} (l : List α) (p : α → Bool)
    (hany : l.any p = true) : ((l.filter p).length == 0) = false := by
  rcases List.any_eq_true.mp hany with ⟨x, hx, hpx⟩
  have hmem : x ∈ l.filter p := List.mem_filter.mpr ⟨hx, hpx⟩
  have hne : l.filter p ≠ [] := List.ne_nil_of_mem hmem
  have hlen : (l.filter p).length ≠ 0 := fun hcontra => hne (List.length_eq_zero.mp hcontra)
  exact beq_eq_false_iff_ne.mpr hlen

/-- C3 (amended): an ingest frame from an identified session that is not
subscribed to its target server or conversation persists nothing and
dispatches nothing; MessageCreate, MessageEdit and MessageDelete answer
the caller with `error(4003, "not in server" | "not in conversation")`,
while MessageAck is silently dropped without any error frame. -/
theorem ingest_unsubscribed_rejected :
    (∀ (h : Hub) (c : Client) (p : ChannelMessagePayload) (nonce : String) (db : DB)
       (newID now : Nat) (persistOk : Bool),
       c.identified = true → c.IsInServer p.serverID = false →
       h.handleChannelMessageCreate c (some p) nonce db newID now persistOk =
         ([(c.cid, errorFrame 4003 "not in server")], db)) ∧
    (∀ (h : Hub) (c : Client) (p : DMMessagePayload) (nonce : String) (db : DB)
       (newID now : Nat) (persistOk : Bool),
       c.identified = true → c.IsInConversation p.conversationID = false →
       h.handleDMMessageCreate c (some p) nonce db newID now persistOk =
         ([(c.cid, errorFrame 4003 "not in conversation")], db)) ∧
    (∀ (h : Hub) (c : Client) (mid chid sid : Nat) (content : String) (db : DB) (now : Nat),
       c.identified = true → content ≠ "" → c.IsInServer sid = false →
       h.handleMessageEdit c (some { id := some mid, content := content,
                                     channelID := some chid, serverID := sid }) db now =
         ([(c.cid, errorFrame 4003 "not in server")], db)) ∧
    (∀ (h : Hub) (c : Client) (mid kid : Nat) (content : String) (db : DB) (now : Nat),
       c.identified = true → content ≠ "" → c.IsInConversation kid = false →
       h.handleMessageEdit c (some { id := some mid, content := content,
                                     conversationID := some kid }) db now =
         ([(c.cid, errorFrame 4003 "not in conversation")], db)) ∧
    (∀ (h : Hub) (c : Client) (mid chid sid : Nat) (db : DB),
       c.identified = true → c.IsInServer sid = false →
       h.handleMessageDelete c (some { messageID := mid, channelID := some chid,
                                       serverID := some sid }) db =
         ([(c.cid, errorFrame 4003 "not in server")], db)) ∧
    (∀ (h : Hub) (c : Client) (mid kid : Nat) (db : DB),
       c.identified = true → c.IsInConversation kid = false →
       h.handleMessageDelete c (some { messageID := mid,
                                       conversationID := some kid }) db =
         ([(c.cid, errorFrame 4003 "not in conversation")], db)) ∧
    (∀ (h : Hub) (c : Client) (mid kid now : Nat) (db : DB),
       c.identified = true → c.IsInConversation kid = false →
       h.handleMessageAck c (some { conversationID := some kid, messageID := mid }) db now =
         ([], db)) := by
  refine ⟨?_, ?_, ?_, ?_, ?_, ?_, ?_⟩
  · intro h c p nonce db newID now persistOk _ hsub
    simp [Hub.handleChannelMessageCreate, hsub]
  · intro h c p nonce db newID now persistOk _ hsub
    simp [Hub.handleDMMessageCreate, hsub]
  · intro h c mid chid sid content db now _ hcont hsub
    have hc : (content == "") = false := beq_eq_false_iff_ne.mpr hcont
    simp [Hub.handleMessageEdit, hc, hsub]
  · intro h c mid kid content db now _ hcont hsub
    have hc : (content == "") = false := beq_eq_false_iff_ne.mpr hcont
    simp [Hub.handleMessageEdit, hc, hsub]
  · intro h c mid chid sid db _ hsub
    simp [Hub.handleMessageDelete, hsub]
  · intro h c mid kid db _ hsub
    simp [Hub.handleMessageDelete, hsub]
  · intro h c mid kid now db _ hsub
    simp [Hub.handleMessageAck, hsub]

/-- Witness for C3 (amended) on a session with no subscriptions: each
ingest frame is rejected as stated, MessageAck silently. -/
theorem ingest_unsubscribed_rejected_witness :
    (({} : Hub).handleChannelMessageCreate { cid := 1, userID := 10, identified := true }
        (some { channelID := 3, serverID := 2, content := "hi" }) "" {} 7 99 true =
      ([(1, errorFrame 4003 "not in server")], {})) ∧
    (({} : Hub).handleDMMessageCreate { cid := 1, userID := 10, identified := true }
        (some { conversationID := 5, content := "hi" }) "" {} 7 99 true =
      ([(1, errorFrame 4003 "not in conversation")], {})) ∧
    (({} : Hub).handleMessageEdit { cid := 1, userID := 10, identified := true }
        (some { id := some 7, content := "x", channelID := some 3, serverID := 2 }) {} 99 =
      ([(1, errorFrame 4003 "not in server")], {})) ∧
    (({} : Hub).handleMessageEdit { cid := 1, userID := 10, identified := true }
        (some { id := some 7, content := "x", conversationID := some 5 }) {} 99 =
      ([(1, errorFrame 4003 "not in conversation")], {})) ∧
    (({} : Hub).handleMessageDelete { cid := 1, userID := 10, identified := true }
        (some { messageID := 7, channelID := some 3, serverID := some 2 }) {} =
      ([(1, errorFrame 4003 "not in server")], {})) ∧
    (({} : Hub).handleMessageDelete { cid := 1, userID := 10, identified := true }
        (some { messageID := 7, conversationID := some 5 }) {} =
      ([(1, errorFrame 4003 "not in conversation")], {})) ∧
    (({} : Hub).handleMessageAck { cid := 1, userID := 10, identified := true }
        (some { conversationID := some 5, messageID := 7 }) {} 99 =
      ([], {})) := by
  have ht := ingest_unsubscribed_rejected
  refine ⟨ht.1 _ _ _ _ _ _ _ _ rfl (by decide),
          ht.2.1 _ _ _ _ _ _ _ _ rfl (by decide),
          ht.2.2.1 _ _ _ _ _ _ _ _ rfl (by decide) (by decide),
          ht.2.2.2.1 _ _ _ _ _ _ _ rfl (by decide) (by decide),
          ht.2.2.2.2.1 _ _ _ _ _ _ rfl (by decide),
          ht.2.2.2.2.2.1 _ _ _ _ _ rfl (by decide),
          ht.2.2.2.2.2.2 _ _ _ _ _ _ rfl (by decide)⟩

/-- C4: for a subscribed caller, an edit or delete succeeds exactly when a
stored row matches the given message id, the given channel or conversation
id, and the caller as author.  When no row matches, the caller gets
`error(4004, "message not found or not authorized")` and nothing is
dispatched or changed; on a match, an edit sets content and
editedAt = now on the matching rows and dispatches the update event to the
whole target index, and a delete removes the rows and dispatches the
delete event. -/
theorem edit_delete_authorship :
    (∀ (h : Hub) (c : Client) (mid chid sid : Nat) (content : String) (db : DB) (now : Nat),
       content ≠ "" → c.IsInServer sid = true →
       h.handleMessageEdit c (some { id := some mid, content := content,
                                     channelID := some chid, serverID := sid }) db now =
         (if db.channelMessages.any (fun m => chMsgMatches m mid chid c.userID) then
            (h.DispatchToServer sid EventChannelMessageUpdate
               (.channelMessage { id := mid, channelID := chid, serverID := sid,
                                  authorID := c.userID, content := content,
                                  editedAt := some now }),
             { db with channelMessages :=
                 db.channelMessages.map (fun m =>
                   if chMsgMatches m mid chid c.userID then
                     { m with content := content, editedAt := some now } else m) })
          else ([(c.cid, errorFrame 4004 "message not found or not authorized")], db))) ∧
    (∀ (h : Hub) (c : Client) (mid kid : Nat) (content : String) (db : DB) (now : Nat),
       content ≠ "" → c.IsInConversation kid = true →
       h.handleMessageEdit c (some { id := some mid, content := content,
                                     conversationID := some kid }) db now =
         (if db.directMessages.any (fun m => dmMsgMatches m mid kid c.userID) then
            (h.DispatchToConversation kid EventDMMessageUpdate
               (.dmMessage { id := mid, conversationID := kid, authorID := c.userID,
                             content := content, editedAt := some now }),
             { db with directMessages :=
                 db.directMessages.map (fun m =>
                   if dmMsgMatches m mid kid c.userID then
                     { m with content := content, editedAt := some now } else m) })
          else ([(c.cid, errorFrame 4004 "message not found or not authorized")], db))) ∧
    (∀ (h : Hub) (c : Client) (mid chid sid : Nat) (db : DB),
       c.IsInServer sid = true →
       h.handleMessageDelete c (some { messageID := mid, channelID := some chid,
                                       serverID := some sid }) db =
         (if db.channelMessages.any (fun m => chMsgMatches m mid chid c.userID) then
            (h.DispatchToServer sid EventChannelMessageDelete
               (.messageDelete { messageID := mid, channelID := some chid,
                                 serverID := some sid }),
             { db with channelMessages :=
                 db.channelMessages.filter (fun m =>
                   !(chMsgMatches m mid chid c.userID)) })
          else ([(c.cid, errorFrame 4004 "message not found or not authorized")], db))) ∧
    (∀ (h : Hub) (c : Client) (mid kid : Nat) (db : DB),
       c.IsInConversation kid = true →
       h.handleMessageDelete c (some { messageID := mid,
                                       conversationID := some kid }) db =
         (if db.directMessages.any (fun m => dmMsgMatches m mid kid c.userID) then
            (h.DispatchToConversation kid EventDMMessageDelete
               (.messageDelete { messageID := mid, conversationID := some kid }),
             { db with directMessages :=
                 db.directMessages.filter (fun m =>
                   !(dmMsgMatches m mid kid c.userID)) })
          else ([(c.cid, errorFrame 4004 "message not found or not authorized")], db))) := by
  refine ⟨?_, ?_, ?_, ?_⟩
  · intro h c mid chid sid content db now hcont hsub
    have hc : (content == "") = false := beq_eq_false_iff_ne.mpr hcont
    cases hany : db.channelMessages.any (fun m => chMsgMatches m mid chid c.userID) with
    | false =>
      have hall : ∀ m ∈ db.channelMessages, chMsgMatches m mid chid c.userID = false := by
        simpa using List.any_eq_false.mp hany
      have hfil : db.channelMessages.filter (fun m => chMsgMatches m mid chid c.userID) = [] :=
        List.filter_eq_nil_iff.mpr (by intro a ha; simp [hall a ha])
      simp [Hub.handleMessageEdit, hc, hsub, updateChannelMessages, hfil,
            map_update_no_match _ _ _ hall]
    | true =>
      have hlen := filter_length_beq_zero_of_any _ _ hany
      simp [Hub.handleMessageEdit, hc, hsub, updateChannelMessages, hlen]
  · intro h c mid kid content db now hcont hsub
    have hc : (content == "") = false := beq_eq_false_iff_ne.mpr hcont
    cases hany : db.directMessages.any (fun m => dmMsgMatches m mid kid c.userID) with
    | false =>
      have hall : ∀ m ∈ db.directMessages, dmMsgMatches m mid kid c.userID = false := by
        simpa using List.any_eq_false.mp hany
      have hfil : db.directMessages.filter (fun m => dmMsgMatches m mid kid c.userID) = [] :=
        List.filter_eq_nil_iff.mpr (by intro a ha; simp [hall a ha])
      simp [Hub.handleMessageEdit, hc, hsub, updateDirectMessages, hfil,
            map_update_no_match _ _ _ hall]
    | true =>
      have hlen := filter_length_beq_zero_of_any _ _ hany
      simp [Hub.handleMessageEdit, hc, hsub, updateDirectMessages, hlen]
  · intro h c mid chid sid db hsub
    cases hany : db.channelMessages.any (fun m => chMsgMatches m mid chid c.userID) with
    | false =>
      have hall : ∀ m ∈ db.channelMessages, chMsgMatches m mid chid c.userID = false := by
        simpa using List.any_eq_false.mp hany
      have hfil : db.channelMessages.filter (fun m => chMsgMatches m mid chid c.userID) = [] :=
        List.filter_eq_nil_iff.mpr (by intro a ha; simp [hall a ha])
      simp [Hub.handleMessageDelete, hsub, deleteChannelMessages, hfil,
            filter_not_no_match _ _ hall]
    | true =>
      have hlen := filter_length_beq_zero_of_any _ _ hany
      simp [Hub.handleMessageDelete, hsub, deleteChannelMessages, hlen]
  · intro h c mid kid db hsub
    cases hany : db.directMessages.any (fun m => dmMsgMatches m mid kid c.userID) with
    | false =>
      have hall : ∀ m ∈ db.directMessages, dmMsgMatches m mid kid c.userID = false := by
        simpa using List.any_eq_false.mp hany
      have hfil : db.directMessages.filter (fun m => dmMsgMatches m mid kid c.userID) = [] :=
        List.filter_eq_nil_iff.mpr (by intro a ha; simp [hall a ha])
      simp [Hub.handleMessageDelete, hsub, deleteDirectMessages, hfil,
            filter_not_no_match _ _ hall]
    | true =>
      have hlen := filter_length_beq_zero_of_any _ _ hany
      simp [Hub.handleMessageDelete, hsub, deleteDirectMessages, hlen]

/-- Witness for C4: an authored edit on a matching row succeeds and
rewrites the row; the other branches hit the 4004 path on an empty store
or delete the matching row. -/
theorem edit_delete_authorship_witness :
    (({} : Hub).handleMessageEdit
        { cid := 1, userID := 10, identified := true, servers := [2] }
        (some { id := some 7, content := "new", channelID := some 3, serverID := 2 })
        { channelMessages := [{ id := 7, channelID := 3, authorID := 10,
                                content := "old" }] } 99 =
      (([] : List (Nat × Message)),
       { channelMessages := [{ id := 7, channelID := 3, authorID := 10,
                               content := "new", editedAt := some 99 }] })) ∧
    (({} : Hub).handleMessageEdit
        { cid := 1, userID := 10, identified := true, conversations := [5] }
        (some { id := some 7, content := "new", conversationID := some 5 }) {} 99 =
      ([(1, errorFrame 4004 "message not found or not authorized")], {})) ∧
    (({} : Hub).handleMessageDelete
        { cid := 1, userID := 10, identified := true, servers := [2] }
        (some { messageID := 7, channelID := some 3, serverID := some 2 })
        { channelMessages := [{ id := 7, channelID := 3, authorID := 10,
                                content := "old" }] } =
      (([] : List (Nat × Message)), {})) ∧
    (({} : Hub).handleMessageDelete
        { cid := 1, userID := 10, identified := true, conversations := [5] }
        (some { messageID := 7, conversationID := some 5 }) {} =
      ([(1, errorFrame 4004 "message not found or not authorized")], {})) := by
  have ht := edit_delete_authorship
  exact ⟨ht.1 _ _ _ _ _ _ _ _ (by decide) (by decide),
         ht.2.1 _ _ _ _ _ _ _ (by decide) (by decide),
         ht.2.2.1 _ _ _ _ _ _ (by decide),
         ht.2.2.2 _ _ _ _ _ (by decide)⟩

/-! ## C10: error frames ride op-Dispatch with an empty event tag -/

/-- The shape law for one frame: when its `d` is an `ErrorPayload`, its
opcode is Dispatch (0) and its event tag is empty. -/
def errOnlyViaDispatch (m : Message) : Prop :=
  ∀ p : ErrorPayload, m.data = some (.error p) → m.op = OpDispatch ∧ m.event = ""

/-- Decidable form of `errOnlyViaDispatch`. -/
def errOnlyViaDispatchB (m : Message) : Bool :=
  match m.data with
  | some (.error _) => (m.op == OpDispatch) && (m.event == "")
  | _ => true

theorem errOnly_of_B (m : Message) (hb : errOnlyViaDispatchB m = true) :
    errOnlyViaDispatch m := by
  intro p hp
  unfold errOnlyViaDispatchB at hb
  rw [hp] at hb
  simp only [Bool.and_eq_true, beq_iff_eq] at hb
  exact hb

theorem errOnly_DispatchToUser (h : Hub) (uid : Nat) (ev : String) (d : Payload)
    (hd : errOnlyViaDispatch (mkDispatch ev d)) :
    ∀ e ∈ h.DispatchToUser uid ev d, errOnlyViaDispatch e.2 := by
  intro e he
  unfold Hub.DispatchToUser Hub.SendToUser at he
  rcases List.mem_map.mp he with ⟨x, _, rfl⟩
  exact hd

theorem errOnly_DispatchToServer (h : Hub) (sid : Nat) (ev : String) (d : Payload)
    (hd : errOnlyViaDispatch (mkDispatch ev d)) :
    ∀ e ∈ h.DispatchToServer sid ev d, errOnlyViaDispatch e.2 := by
  intro e he
  unfold Hub.DispatchToServer Hub.SendToServer at he
  rcases List.mem_map.mp he with ⟨x, _, rfl⟩
  exact hd

theorem errOnly_DispatchToConversation (h : Hub) (kid : Nat) (ev : String) (d : Payload)
    (hd : errOnlyViaDispatch (mkDispatch ev d)) :
    ∀ e ∈ h.DispatchToConversation kid ev d, errOnlyViaDispatch e.2 := by
  intro e he
  unfold Hub.DispatchToConversation Hub.SendToConversation at he
  rcases List.mem_map.mp he with ⟨x, _, rfl⟩
  exact hd

theorem errOnly_DispatchChannelMessage (h : Hub) (S C : Nat)
    (full : ChannelMessagePayload) :
    ∀ e ∈ h.DispatchChannelMessage S C full, errOnlyViaDispatch e.2 := by
  intro e he
  unfold Hub.DispatchChannelMessage at he
  rcases List.mem_filterMap.mp he with ⟨x, _, hx⟩
  cases hgx : h.getClient x with
  | none => rw [hgx] at hx; cases hx
  | some cx =>
    rw [hgx] at hx
    dsimp only at hx
    split at hx <;> (cases hx; exact errOnly_of_B _ rfl)

theorem errOnly_DispatchDMMessage (h : Hub) (K : Nat) (full : DMMessagePayload) :
    ∀ e ∈ h.DispatchDMMessage K full, errOnlyViaDispatch e.2 := by
  intro e he
  unfold Hub.DispatchDMMessage at he
  rcases List.mem_filterMap.mp he with ⟨x, _, hx⟩
  cases hgx : h.getClient x with
  | none => rw [hgx] at hx; cases hx
  | some cx =>
    rw [hgx] at hx
    dsimp only at hx
    split at hx <;> (cases hx; exact errOnly_of_B _ rfl)

set_option maxHeartbeats 2000000 in
/-- C10: every frame any handler emits satisfies the error-shape law —
whenever its payload is an `ErrorPayload` (codes 4000–4004 and 5000 are
the ones the handlers use), the frame is an op-Dispatch (op 0) frame with
an empty event tag and `{code, message}` as `d`; no dedicated error opcode
exists on the wire. -/
theorem errors_ride_dispatch_frames :
    (∀ (identified : Bool) (op : Nat) (m : Message),
       HandleMessage identified op = .rejected m → errOnlyViaDispatch m) ∧
    (∀ (h : Hub) (env : IdentifyEnv) (c : Client) (d : Option IdentifyPayload)
       (e : Nat × Message), e ∈ (h.handleIdentify env c d).2.2.1 →
       errOnlyViaDispatch e.2) ∧
    (∀ (c : Client) (nowMs : Int) (e : Nat × Message),
       e ∈ (Hub.handleHeartbeat c nowMs).1 → errOnlyViaDispatch e.2) ∧
    (∀ (h : Hub) (c : Client) (d : Option PresenceUpdatePayload) (e : Nat × Message),
       e ∈ (h.handlePresenceUpdate c d).2.2.1 → errOnlyViaDispatch e.2) ∧
    (∀ (h : Hub) (c : Client) (d : Option FocusPayload) (nonce : String)
       (e : Nat × Message), e ∈ (h.handleFocusChange c d nonce).2.2 →
       errOnlyViaDispatch e.2) ∧
    (∀ (h : Hub) (c : Client) (d : Option TypingPayload) (e : Nat × Message),
       e ∈ h.handleTypingStart c d → errOnlyViaDispatch e.2) ∧
    (∀ (h : Hub) (c : Client) (d : Option TypingPayload) (e : Nat × Message),
       e ∈ h.handleTypingStop c d → errOnlyViaDispatch e.2) ∧
    (∀ (h : Hub) (c : Client) (d : Option ChannelMessagePayload) (nonce : String)
       (db : DB) (newID now : Nat) (persistOk : Bool) (e : Nat × Message),
       e ∈ (h.handleChannelMessageCreate c d nonce db newID now persistOk).1 →
       errOnlyViaDispatch e.2) ∧
    (∀ (h : Hub) (c : Client) (d : Option DMMessagePayload) (nonce : String)
       (db : DB) (newID now : Nat) (persistOk : Bool) (e : Nat × Message),
       e ∈ (h.handleDMMessageCreate c d nonce db newID now persistOk).1 →
       errOnlyViaDispatch e.2) ∧
    (∀ (h : Hub) (c : Client) (d : Option EditInput) (db : DB) (now : Nat)
       (e : Nat × Message), e ∈ (h.handleMessageEdit c d db now).1 →
       errOnlyViaDispatch e.2) ∧
    (∀ (h : Hub) (c : Client) (d : Option MessageDeletePayload) (db : DB)
       (e : Nat × Message), e ∈ (h.handleMessageDelete c d db).1 →
       errOnlyViaDispatch e.2) ∧
    (∀ (h : Hub) (c : Client) (d : Option MessageAckPayload) (db : DB) (now : Nat)
       (e : Nat × Message), e ∈ (h.handleMessageAck c d db now).1 →
       errOnlyViaDispatch e.2) := by
  refine ⟨?_, ?_, ?_, ?_, ?_, ?_, ?_, ?_, ?_, ?_, ?_, ?_⟩
  · intro identified op m hres
    unfold HandleMessage at hres
    repeat' split at hres
    all_goals cases hres
    all_goals exact errOnly_of_B _ rfl
  · intro h env c d e he
    unfold Hub.handleIdentify at he
    repeat' first
      | split at he
      | dsimp only at he
    all_goals
      rw [List.mem_singleton] at he
    all_goals
      subst he
    all_goals exact errOnly_of_B _ rfl
  · intro c nowMs e he
    unfold Hub.handleHeartbeat at he
    rw [List.mem_singleton] at he
    subst he
    exact errOnly_of_B _ rfl
  · intro h c d e he
    unfold Hub.handlePresenceUpdate at he
    repeat' first
      | split at he
      | dsimp only at he
    all_goals first
      | (rw [List.mem_singleton] at he; subst he; exact errOnly_of_B _ rfl)
      | cases he
  · intro h c d nonce e he
    unfold Hub.handleFocusChange at he
    repeat' first
      | split at he
      | dsimp only at he
    all_goals first
      | (rw [List.mem_singleton] at he; subst he; exact errOnly_of_B _ rfl)
      | cases he
  · intro h c d e he
    unfold Hub.handleTypingStart at he
    repeat' first
      | split at he
      | dsimp only at he
    all_goals first
      | (refine errOnly_DispatchToServer _ _ _ _ ?_ e he; exact errOnly_of_B _ rfl)
      | (refine errOnly_DispatchToConversation _ _ _ _ ?_ e he; exact errOnly_of_B _ rfl)
      | cases he
  · intro h c d e he
    unfold Hub.handleTypingStop at he
    repeat' first
      | split at he
      | dsimp only at he
    all_goals first
      | (refine errOnly_DispatchToServer _ _ _ _ ?_ e he; exact errOnly_of_B _ rfl)
      | (refine errOnly_DispatchToConversation _ _ _ _ ?_ e he; exact errOnly_of_B _ rfl)
      | cases he
  · intro h c d nonce db newID now persistOk e he
    unfold Hub.handleChannelMessageCreate at he
    repeat' first
      | split at he
      | dsimp only at he
    all_goals first
      | (rw [List.mem_singleton] at he; subst he; exact errOnly_of_B _ rfl)
      | exact errOnly_DispatchChannelMessage _ _ _ _ e he
      | (rcases List.mem_append.mp he with he' | he'
         · exact errOnly_DispatchChannelMessage _ _ _ _ e he'
         · rw [List.mem_singleton] at he'
           subst he'
           exact errOnly_of_B _ rfl)
  · intro h c d nonce db newID now persistOk e he
    unfold Hub.handleDMMessageCreate at he
    repeat' first
      | split at he
      | dsimp only at he
    all_goals first
      | (rw [List.mem_singleton] at he; subst he; exact errOnly_of_B _ rfl)
      | exact errOnly_DispatchDMMessage _ _ _ e he
      | (rcases List.mem_append.mp he with he' | he'
         · exact errOnly_DispatchDMMessage _ _ _ e he'
         · rw [List.mem_singleton] at he'
           subst he'
           exact errOnly_of_B _ rfl)
  · intro h c d db now e he
    unfold Hub.handleMessageEdit at he
    repeat' first
      | split at he
      | dsimp only at he
    all_goals first
      | (rw [List.mem_singleton] at he; subst he; exact errOnly_of_B _ rfl)
      | (refine errOnly_DispatchToServer _ _ _ _ ?_ e he; exact errOnly_of_B _ rfl)
      | (refine errOnly_DispatchToConversation _ _ _ _ ?_ e he; exact errOnly_of_B _ rfl)
      | cases he
  · intro h c d db e he
    unfold Hub.handleMessageDelete at he
    repeat' first
      | split at he
      | dsimp only at he
    all_goals first
      | (rw [List.mem_singleton] at he; subst he; exact errOnly_of_B _ rfl)
      | (refine errOnly_DispatchToServer _ _ _ _ ?_ e he; exact errOnly_of_B _ rfl)
      | (refine errOnly_DispatchToConversation _ _ _ _ ?_ e he; exact errOnly_of_B _ rfl)
      | cases he
  · intro h c d db now e he
    unfold Hub.handleMessageAck at he
    repeat' first
      | split at he
      | dsimp only at he
    all_goals first
      | (refine errOnly_DispatchToConversation _ _ _ _ ?_ e he; exact errOnly_of_B _ rfl)
      | cases he

/-- Witness for C10: the 4001 rejection frame of the gate is an op-0 frame
with no event tag, obtained through the theorem. -/
theorem errors_ride_dispatch_frames_witness :
    (errorFrame 4001 "not authenticated").op = OpDispatch ∧
    (errorFrame 4001 "not authenticated").event = "" := by
  exact (errors_ride_dispatch_frames.1 false OpTypingStart _ rfl)
    { code := 4001, message := "not authenticated" } rfl

end Gateway
